import Mathlib

/-!
Verification development for the BMW Z3 listings dashboard (src/app.py).

The dashboard loads a CSV of used-car listings, filters them by publication
date, model year, mileage, price and seller type, and renders summary
statistics, a per-year aggregate, a least-squares trend line and a detail
table.  This file gives a shallow embedding of that pipeline:

* dates are calendar dates parsed from DD/MM/YYYY strings, compared through
  their epoch day number (pandas datetime comparisons are chronological and
  the parsed column carries no time of day);
* the data frame is a `List Listing`; boolean-mask filtering is `List.filter`;
* pandas floats that can be NaN (mean/median of an empty frame) are the
  explicit type `PFloat`;
* `np.polyfit(x, y, 1)` is the closed-form least-squares solution over `ℚ`.
  polyfit scales the columns of the Vandermonde matrix by their norms before
  calling np.linalg.lstsq; when every day offset is zero (all dates of the
  view coincide) the x column norm is zero, the scaled matrix holds NaN,
  lstsq raises LinAlgError and the generic top-level handler surfaces an
  error, so `fit_trend` returns an explicit `TrendResult.failed` outcome in
  that case rather than a model;
* the detail table transformation keeps the order of operations of the code:
  the date column is formatted to a DD/MM/YYYY string first and the sort is
  applied to those strings (descending), exactly as in app.py lines 252-253.
-/

/-- Calendar date (no time component), as produced by parsing DD/MM/YYYY. -/
structure Date where
  year : Nat
  month : Nat
  day : Nat
deriving DecidableEq, Repr

/-- Gregorian leap-year rule, as used by the datetime library. -/
def isLeap (y : Nat) : Bool :=
  (y % 4 == 0 && y % 100 != 0) || y % 400 == 0

/-- Number of days of month `m` in year `y`. -/
def daysInMonth (y m : Nat) : Nat :=
  if m == 2 then (if isLeap y then 29 else 28)
  else if m == 4 || m == 6 || m == 9 || m == 11 then 30
  else 31

/-- Day number of a civil date (days since 1970-01-01, Hinnant`s algorithm,
restricted to years from 1 on, where all intermediate values are natural).
Differences of day numbers are what pandas exposes as `.dt.days`. -/
def Date.toDays (dt : Date) : Int :=
  let y : Nat := if dt.month ≤ 2 then dt.year - 1 else dt.year
  let era : Nat := y / 400
  let yoe : Nat := y % 400
  let mp : Nat := (dt.month + 9) % 12
  let doy : Nat := (153 * mp + 2) / 5 + dt.day - 1
  let doe : Nat := yoe * 365 + yoe / 4 - yoe / 100 + doy
  (era * 146097 + doe : Int) - 719468

/-- Split a character list at every '/' (model of splitting the raw date
cell, used by the strptime model below). -/
def splitSlash : List Char → List (List Char)
  | [] => [[]]
  | c :: rest =>
    match splitSlash rest with
    | [] => [[]]
    | g :: gs => if c == '/' then [] :: g :: gs else (c :: g) :: gs

/-- Decimal value of a digit character. -/
def digitVal (c : Char) : Nat := c.toNat - 48

/-- The day field of the strptime directive %d, whose pattern is
`3[01]|[12]d|0[1-9]|[1-9]| [1-9]`: two digits 01-31, a bare nonzero digit,
or a space-padded nonzero digit. -/
def parseDayField : List Char → Option Nat
  | [c] => if c.isDigit && c != '0' then some (digitVal c) else none
  | [c1, c2] =>
    if c1 == ' ' || c1 == '0' then
      if c2.isDigit && c2 != '0' then some (digitVal c2) else none
    else if c1 == '1' || c1 == '2' then
      if c2.isDigit then some (digitVal c1 * 10 + digitVal c2) else none
    else if c1 == '3' then
      if c2 == '0' || c2 == '1' then some (30 + digitVal c2) else none
    else none
  | _ => none

/-- The month field of the strptime directive %m, whose pattern is
`1[0-2]|0[1-9]|[1-9]`: 01-12 or a bare nonzero digit, with no space
padding. -/
def parseMonthField : List Char → Option Nat
  | [c] => if c.isDigit && c != '0' then some (digitVal c) else none
  | [c1, c2] =>
    if c1 == '0' then
      if c2.isDigit && c2 != '0' then some (digitVal c2) else none
    else if c1 == '1' then
      if c2 == '0' || c2 == '1' || c2 == '2' then some (10 + digitVal c2) else none
    else none
  | _ => none

/-- The year field of the strptime directive %Y, whose pattern is exactly
four digits. -/
def parseYearField : List Char → Option Nat
  | [a, b, c, d] =>
    if a.isDigit && b.isDigit && c.isDigit && d.isDigit then
      some (digitVal a * 1000 + digitVal b * 100 + digitVal c * 10 + digitVal d)
    else none
  | _ => none

/-- Model of parsing one cell with `pd.to_datetime(..., format="%d/%m/%Y")`:
the strptime fields %d, %m and %Y separated by literal slashes with nothing
left over, a valid calendar day for the month and year, and a value inside
the representable range of nanosecond timestamps (midnight of 1677-09-22 up
to 2262-04-11; outside it pandas raises OutOfBoundsDatetime).  Anything else
makes the conversion raise. -/
def parseDate (s : String) : Option Date :=
  match splitSlash s.toList with
  | [ds, ms, ys] =>
    match parseDayField ds, parseMonthField ms, parseYearField ys with
    | some d, some m, some y =>
      if decide (d ≤ daysInMonth y m) &&
         decide (Date.toDays { year := 1677, month := 9, day := 22 } ≤
                 Date.toDays { year := y, month := m, day := d }) &&
         decide (Date.toDays { year := y, month := m, day := d } ≤
                 Date.toDays { year := 2262, month := 4, day := 11 }) then
        some { year := y, month := m, day := d }
      else none
    | _, _, _ => none
  | _ => none

/-- One retained row of the loaded data frame: date parsed, price present. -/
structure Listing where
  titre : String
  date_publication : Date
  annee : Int
  kilometrage_km : Int
  prix_eur : Int
  ville : String
  type_vendeur : String
  url : String
deriving DecidableEq, Repr

/-- One raw CSV row as read by `pd.read_csv`: the date cell may be missing
(`none`, a NaN cell) or present as an arbitrary string; the price cell may be
missing (`none`). -/
structure RawRow where
  titre : String
  date_publication : Option String
  annee : Int
  kilometrage_km : Int
  prix_eur : Option Int
  ville : String
  type_vendeur : String
  url : String
deriving DecidableEq, Repr

/-- Failure modes of the load path of app.py: `sourceUnavailable` is the
FileNotFoundError branch (line 282) and `parseError` is the ValueError that
`pd.to_datetime(..., format=...)` raises on a present but unparsable date,
caught by the generic handler (line 284). -/
inductive LoadError where
  | sourceUnavailable : LoadError
  | parseError : LoadError
deriving DecidableEq, Repr

/-- True when some row has a present date cell that does not parse; in that
case `pd.to_datetime` raises and the whole load fails. -/
def anyBadDate (rows : List RawRow) : Bool :=
  rows.any (fun r =>
    match r.date_publication with
    | some s => (parseDate s).isNone
    | none => false)

/-- Conversion of a raw row into a retained Listing: `none` exactly when the
row is dropped by `dropna(subset=["prix_eur", "date_publication"])`. -/
def rowToListing (r : RawRow) : Option Listing :=
  match r.date_publication.bind parseDate, r.prix_eur with
  | some d, some p =>
    some { titre := r.titre, date_publication := d, annee := r.annee,
           kilometrage_km := r.kilometrage_km, prix_eur := p,
           ville := r.ville, type_vendeur := r.type_vendeur, url := r.url }
  | _, _ => none

/-- Model of `load_data` (app.py lines 21-31) together with the surrounding
try/except: `none` as source is a missing data.csv; otherwise the date column
is converted (raising if a present cell is unparsable) and rows with missing
date or price are dropped. -/
def load_data (source : Option (List RawRow)) : Except LoadError (List Listing) :=
  match source with
  | none => Except.error LoadError.sourceUnavailable
  | some rows =>
    if anyBadDate rows then Except.error LoadError.parseError
    else Except.ok (rows.filterMap rowToListing)

/-- Filter criteria supplied by the sidebar widgets: inclusive date, year,
mileage and price ranges and the selected seller types. -/
structure FilterCriteria where
  date_range : Date × Date
  annee_range : Int × Int
  km_range : Int × Int
  prix_range : Int × Int
  type_vendeur : List String
deriving DecidableEq, Repr

/-- Date predicate of the first filter block (app.py lines 98-102): the
publication date lies in the inclusive date range (date-only precision). -/
def dateFilterOk (c : FilterCriteria) (r : Listing) : Bool :=
  decide (c.date_range.1.toDays ≤ r.date_publication.toDays) &&
  decide (r.date_publication.toDays ≤ c.date_range.2.toDays)

/-- Conjunction of the second filter block (app.py lines 104-112): year,
mileage and price in their inclusive ranges, seller type in the selection. -/
def otherFiltersOk (c : FilterCriteria) (r : Listing) : Bool :=
  decide (c.annee_range.1 ≤ r.annee) && decide (r.annee ≤ c.annee_range.2) &&
  decide (c.km_range.1 ≤ r.kilometrage_km) && decide (r.kilometrage_km ≤ c.km_range.2) &&
  decide (c.prix_range.1 ≤ r.prix_eur) && decide (r.prix_eur ≤ c.prix_range.2) &&
  decide (r.type_vendeur ∈ c.type_vendeur)

/-- The two successive boolean-mask filters of app.py lines 96-112. -/
def applyFilters (df : List Listing) (c : FilterCriteria) : List Listing :=
  (df.filter (dateFilterOk c)).filter (otherFiltersOk c)

/-- A pandas float that may be NaN.  `pd.Series.mean` and `.median` on an
empty series give NaN; this type makes that value explicit. -/
inductive PFloat where
  | nan : PFloat
  | val : ℚ → PFloat
deriving DecidableEq

/-- Insert into a list before the first element `y` with `le x y`. -/
def insertBy {α : Type} (le : α → α → Bool) (x : α) : List α → List α
  | [] => [x]
  | y :: ys => if le x y then x :: y :: ys else y :: insertBy le x ys

/-- Insertion sort by a boolean comparison (the pandas sort order is given by
the comparison only; tie order is unspecified by its quicksort). -/
def sortBy {α : Type} (le : α → α → Bool) : List α → List α
  | [] => []
  | x :: xs => insertBy le x (sortBy le xs)

/-- Mean of a series, NaN on an empty one (pandas `.mean()`). -/
def pmean (xs : List ℚ) : PFloat :=
  if xs.length = 0 then PFloat.nan
  else PFloat.val (xs.sum / (xs.length : ℚ))

/-- Median of a series, NaN on an empty one (pandas `.median()`: sort, take
the middle element, or the mean of the two middle elements). -/
def pmedian (xs : List ℚ) : PFloat :=
  if xs.length = 0 then PFloat.nan
  else
    let s := sortBy (fun a b => decide (a ≤ b)) xs
    if xs.length % 2 = 1 then PFloat.val (s.getD (xs.length / 2) 0)
    else PFloat.val ((s.getD (xs.length / 2 - 1) 0 + s.getD (xs.length / 2) 0) / 2)

/-- The four key metrics of app.py lines 119-129. -/
structure Summary where
  count : Nat
  mean_price : PFloat
  median_price : PFloat
  mean_mileage : PFloat
deriving DecidableEq

/-- Model of the metrics block (app.py lines 119-129): count, mean price,
median price and mean mileage of the filtered view, computed by pandas with
no emptiness check. -/
def summarize (view : List Listing) : Summary where
  count := view.length
  mean_price := pmean (view.map (fun r => (r.prix_eur : ℚ)))
  median_price := pmedian (view.map (fun r => (r.prix_eur : ℚ)))
  mean_mileage := pmean (view.map (fun r => (r.kilometrage_km : ℚ)))

/-- The distinct model years of the view, ascending (the group keys of
`df_filtered.groupby("annee")`, which sorts keys by default). -/
def yearsOf (view : List Listing) : List Int :=
  ((view.map (fun r => r.annee)).toFinset.sort (· ≤ ·))

/-- The listings of the view with the given model year. -/
def yearGroup (view : List Listing) (y : Int) : List Listing :=
  view.filter (fun r => decide (r.annee = y))

/-- Model of `prix_par_annee` (app.py line 205): group by model year, one
entry per present year in ascending order, with the mean price and the row
count of each group. -/
def group_by_year (view : List Listing) : List (Int × PFloat × Nat) :=
  (yearsOf view).map (fun y =>
    (y, pmean ((yearGroup view y).map (fun r => (r.prix_eur : ℚ))), (yearGroup view y).length))

/-- Degree-one polynomial fit result of `np.polyfit(..., 1)`. -/
structure LinearModel where
  slope : ℚ
  intercept : ℚ
deriving DecidableEq, Repr

/-- Evaluation of the fitted polynomial, `np.poly1d(z)` applied to x. -/
def LinearModel.predict (lm : LinearModel) (x : ℚ) : ℚ :=
  lm.slope * x + lm.intercept

/-- Minimum of a list of day numbers (`df["date_publication"].min()` on a
nonempty frame; the value on `[]` is irrelevant, the caller guards). -/
def minDays : List Int → Int
  | [] => 0
  | [x] => x
  | x :: y :: rest => min x (minDays (y :: rest))

/-- The regression points of app.py lines 159-160: x is the integer day
offset of each publication date from the minimal date of the view, y is the
price. -/
def trendPoints (view : List Listing) : List (ℚ × ℚ) :=
  view.map (fun r =>
    (((r.date_publication.toDays - minDays (view.map (fun s => s.date_publication.toDays)) : Int) : ℚ),
     (r.prix_eur : ℚ)))

/-- Sum of the x coordinates. -/
def sumX (pts : List (ℚ × ℚ)) : ℚ := (pts.map (fun p => p.1)).sum

/-- Sum of the y coordinates. -/
def sumY (pts : List (ℚ × ℚ)) : ℚ := (pts.map (fun p => p.2)).sum

/-- Sum of the squared x coordinates. -/
def sumXX (pts : List (ℚ × ℚ)) : ℚ := (pts.map (fun p => p.1 * p.1)).sum

/-- Sum of the products x * y. -/
def sumXY (pts : List (ℚ × ℚ)) : ℚ := (pts.map (fun p => p.1 * p.2)).sum

/-- Determinant of the least-squares normal equations. -/
def olsDenom (pts : List (ℚ × ℚ)) : ℚ :=
  (pts.length : ℚ) * sumXX pts - sumX pts * sumX pts

/-- Closed-form ordinary least-squares line, the value `np.polyfit(x, y, 1)`
computes when the day-offset column is not identically zero; `fit_trend`
below never reaches this formula in the degenerate case, where the polyfit
call raises instead of producing coefficients. -/
def olsFit (pts : List (ℚ × ℚ)) : LinearModel :=
  let slope : ℚ := ((pts.length : ℚ) * sumXY pts - sumX pts * sumY pts) / olsDenom pts
  { slope := slope, intercept := (sumY pts - slope * sumX pts) / (pts.length : ℚ) }

/-- Outcome of the trend block: `skipped` when the row-count guard leaves
the overlay out without any error, `fitted` when np.polyfit returns a line,
and `failed` when np.polyfit raises and the generic top-level handler turns
the whole render into an error message. -/
inductive TrendResult where
  | skipped : TrendResult
  | fitted : LinearModel → TrendResult
  | failed : TrendResult
deriving DecidableEq, Repr

/-- Model of the trend block (app.py lines 157-166): only when the filtered
view has more than one row is np.polyfit called.  polyfit divides each
Vandermonde column by its norm; when every day offset is zero the x column
norm `sqrt(sumXX)` is zero, the division produces NaN and np.linalg.lstsq
raises LinAlgError, which only the generic top-level handler catches
(`failed`); otherwise the least-squares line is produced. -/
def fit_trend (view : List Listing) : TrendResult :=
  if 1 < view.length then
    if sumXX (trendPoints view) = 0 then TrendResult.failed
    else TrendResult.fitted (olsFit (trendPoints view))
  else TrendResult.skipped

/-- Sum of the fit residuals (first least-squares normal equation). -/
def residSum (pts : List (ℚ × ℚ)) (lm : LinearModel) : ℚ :=
  (pts.map (fun p => p.2 - (lm.slope * p.1 + lm.intercept))).sum

/-- Sum of the x-weighted fit residuals (second normal equation). -/
def residXSum (pts : List (ℚ × ℚ)) (lm : LinearModel) : ℚ :=
  (pts.map (fun p => p.1 * (p.2 - (lm.slope * p.1 + lm.intercept)))).sum

/-- Decimal digit character. -/
def digitChar (n : Nat) : Char :=
  match n with
  | 0 => '0' | 1 => '1' | 2 => '2' | 3 => '3' | 4 => '4'
  | 5 => '5' | 6 => '6' | 7 => '7' | 8 => '8' | _ => '9'

/-- Two-digit zero-padded decimal rendering of a value below 100. -/
def pad2 (n : Nat) : List Char :=
  if n < 10 then ['0', digitChar n] else [digitChar (n / 10 % 10), digitChar (n % 10)]

/-- Model of `.dt.strftime("%d/%m/%Y")` for four-digit years. -/
def formatDate (d : Date) : String :=
  String.mk (pad2 d.day ++ '/' :: pad2 d.month ++ '/' ::
    [digitChar (d.year / 1000 % 10), digitChar (d.year / 100 % 10),
     digitChar (d.year / 10 % 10), digitChar (d.year % 10)])

/-- Code-point lexicographic comparison of character lists, the order python
and pandas use to compare strings. -/
def charListLt : List Char → List Char → Bool
  | [], [] => false
  | [], _ :: _ => true
  | _ :: _, [] => false
  | a :: as, b :: bs =>
    if a.toNat < b.toNat then true
    else if b.toNat < a.toNat then false
    else charListLt as bs

/-- One row of the display table, after the date column has been formatted
to a DD/MM/YYYY string (app.py line 252). -/
structure DisplayRow where
  titre : String
  date_publication : String
  annee : Int
  kilometrage_km : Int
  prix_eur : Int
  ville : String
  type_vendeur : String
  url : String
deriving DecidableEq, Repr

/-- Projection of a listing to its display row: the date becomes a string. -/
def toDisplay (r : Listing) : DisplayRow where
  titre := r.titre
  date_publication := formatDate r.date_publication
  annee := r.annee
  kilometrage_km := r.kilometrage_km
  prix_eur := r.prix_eur
  ville := r.ville
  type_vendeur := r.type_vendeur
  url := r.url

/-- Model of the detail table of app.py lines 247-253, keeping the order of
operations of the code: the date column is formatted first (line 252) and the
descending sort of line 253 is therefore applied to the formatted strings. -/
def displayTable (view : List Listing) : List DisplayRow :=
  sortBy (fun a b => !(charListLt a.date_publication.toList b.date_publication.toList))
    (view.map toDisplay)

/-- A concrete listing used by witnesses, with the given date and price. -/
def demoListing (d : Date) (p : Int) : Listing :=
  { titre := "BMW Z3 1.9i", date_publication := d, annee := 1999,
    kilometrage_km := 120000, prix_eur := p, ville := "Lyon",
    type_vendeur := "particulier", url := "https://example.org/a" }

/-- Two listings ten days apart with prices 1000 and 2000: day offsets 0 and
10, the instance named by the specification. -/
def demoUp : List Listing :=
  [demoListing { year := 2024, month := 1, day := 1 } 1000,
   demoListing { year := 2024, month := 1, day := 11 } 2000]

/-- A single listing, duplicated below to exercise the trend guard. -/
def dupListing : Listing := demoListing { year := 2024, month := 1, day := 1 } 1000

/-- Listing published January 2, 2024 (formatted "02/01/2024"). -/
def listingJan2 : Listing := demoListing { year := 2024, month := 1, day := 2 } 9000

/-- Listing published February 1, 2024 (formatted "01/02/2024"). -/
def listingFeb1 : Listing := demoListing { year := 2024, month := 2, day := 1 } 9500

/-- A raw CSV row with every field present and a parsable date. -/
def rawGoodRow : RawRow :=
  { titre := "BMW Z3", date_publication := some "15/03/2024", annee := 1998,
    kilometrage_km := 90000, prix_eur := some 12000, ville := "Paris",
    type_vendeur := "professionnel", url := "https://example.org/b" }

/-- A raw CSV row whose date cell is present but unparsable. -/
def rawBadDateRow : RawRow :=
  { rawGoodRow with date_publication := some "not a date" }

/-- The listing that `rawGoodRow` yields when retained. -/
def goodListing : Listing :=
  { titre := "BMW Z3", date_publication := { year := 2024, month := 3, day := 15 },
    annee := 1998, kilometrage_km := 90000, prix_eur := 12000, ville := "Paris",
    type_vendeur := "professionnel", url := "https://example.org/b" }

/-- A raw CSV row with a missing price cell. -/
def rawNoPriceRow : RawRow :=
  { rawGoodRow with prix_eur := none }

/-- Five well-formed raw rows and two rows missing prix_eur, the load
scenario named by the specification. -/
def sevenRows : List RawRow :=
  [rawGoodRow,
   { rawGoodRow with date_publication := some "16/03/2024" },
   { rawGoodRow with date_publication := some "17/03/2024" },
   { rawGoodRow with date_publication := some "18/03/2024" },
   { rawGoodRow with date_publication := some "19/03/2024" },
   rawNoPriceRow,
   { rawNoPriceRow with date_publication := some "20/03/2024" }]

/-- Criteria wide enough to keep the demo listings. -/
def critWide : FilterCriteria :=
  { date_range := ({ year := 2020, month := 1, day := 1 }, { year := 2025, month := 12, day := 31 }),
    annee_range := (1995, 2003),
    km_range := (0, 500000),
    prix_range := (0, 100000),
    type_vendeur := ["particulier", "professionnel"] }

/-- Criteria whose date range is inverted (min after max). -/
def critInverted : FilterCriteria :=
  { critWide with
    date_range := ({ year := 2025, month := 12, day := 31 }, { year := 2020, month := 1, day := 1 }) }

/-! ## Helper lemmas -/

/-- The length of a filterMap is the number of elements it keeps. -/
theorem length_filterMap_eq {α β : Type} (f : α → Option β) (l : List α) :
    (l.filterMap f).length = (l.filter (fun a => (f a).isSome)).length := by
  induction l with
  | nil => rfl
  | cons a t ih =>
    cases h : f a <;> simp [List.filterMap_cons, List.filter_cons, h, ih]

/-- A raw row survives the load exactly when its date parses and its price is
present. -/
theorem rowToListing_isSome (r : RawRow) :
    (rowToListing r).isSome = ((r.date_publication.bind parseDate).isSome && r.prix_eur.isSome) := by
  unfold rowToListing
  cases r.date_publication.bind parseDate <;> cases r.prix_eur <;> simp

/-- Membership in the filtered view, in terms of the two boolean masks. -/
theorem applyFilters_mem_aux (L : List Listing) (c : FilterCriteria) (l : Listing) :
    l ∈ applyFilters L c ↔ l ∈ L ∧ dateFilterOk c l = true ∧ otherFiltersOk c l = true := by
  simp only [applyFilters, List.mem_filter]
  tauto

/-- The regression has as many points as the view has rows. -/
theorem trendPoints_length (view : List Listing) :
    (trendPoints view).length = view.length := by
  simp [trendPoints]

/-- First normal equation, expanded over the sums. -/
theorem residSum_eq (pts : List (ℚ × ℚ)) (lm : LinearModel) :
    residSum pts lm = sumY pts - lm.slope * sumX pts - (pts.length : ℚ) * lm.intercept := by
  induction pts with
  | nil => simp [residSum, sumX, sumY]
  | cons p ps ih =>
    simp only [residSum, sumX, sumY, List.map_cons, List.sum_cons, List.length_cons] at *
    push_cast
    linarith [ih]

/-- Second normal equation, expanded over the sums. -/
theorem residXSum_eq (pts : List (ℚ × ℚ)) (lm : LinearModel) :
    residXSum pts lm = sumXY pts - lm.slope * sumXX pts - lm.intercept * sumX pts := by
  induction pts with
  | nil => simp [residXSum, sumXX, sumXY, sumX]
  | cons p ps ih =>
    simp only [residXSum, sumX, sumXX, sumXY, List.map_cons, List.sum_cons] at *
    linarith [ih]

/-- The closed-form fit satisfies both least-squares normal equations
whenever the view is nonempty and the determinant does not vanish: it is the
ordinary least-squares solution. -/
theorem olsFit_normalEquations (pts : List (ℚ × ℚ))
    (hn : (pts.length : ℚ) ≠ 0) (hD : olsDenom pts ≠ 0) :
    residSum pts (olsFit pts) = 0 ∧ residXSum pts (olsFit pts) = 0 := by
  have hD' : (pts.length : ℚ) * sumXX pts - sumX pts * sumX pts ≠ 0 := by
    simpa [olsDenom] using hD
  constructor
  · rw [residSum_eq]
    simp only [olsFit, olsDenom]
    field_simp
    ring
  · rw [residXSum_eq]
    simp only [olsFit, olsDenom]
    field_simp
    ring

/-- The ascending year keys are exactly the years present in the view. -/
theorem mem_yearsOf (view : List Listing) (y : Int) :
    y ∈ yearsOf view ↔ y ∈ view.map (fun r => r.annee) := by
  simp [yearsOf, Finset.mem_sort, List.mem_toFinset]

/-- When the sum of the squared x coordinates vanishes, every x coordinate
is zero, so their sum vanishes as well. -/
theorem sumX_sq_zero (pts : List (ℚ × ℚ)) (h : sumXX pts = 0) : sumX pts = 0 := by
  induction pts with
  | nil => simp [sumX]
  | cons p ps ih =>
    simp only [sumXX, List.map_cons, List.sum_cons] at h
    have hrest : 0 ≤ (ps.map (fun q => q.1 * q.1)).sum := by
      apply List.sum_nonneg
      intro x hx
      obtain ⟨q, hq, rfl⟩ := List.mem_map.mp hx
      exact mul_self_nonneg q.1
    have hp0 : p.1 * p.1 = 0 :=
      le_antisymm (by linarith) (mul_self_nonneg p.1)
    have hps : sumXX ps = 0 := by
      simp only [sumXX]
      linarith
    simp only [sumX, List.map_cons, List.sum_cons]
    rw [mul_self_eq_zero.mp hp0]
    simpa [sumX] using ih hps

/-! ## Claims -/

/-- Claim C5: a listing is in the filtered view exactly when it is an input
listing whose publication date lies in the inclusive date range (date-only
precision), whose model year, mileage and price lie in their inclusive
ranges, and whose seller type belongs to the selection: the conjunction of
the five predicates of app.py lines 96-112. -/
theorem mem_applyFilters_iff (L : List Listing) (c : FilterCriteria) (l : Listing) :
    l ∈ applyFilters L c ↔
      l ∈ L ∧
      (c.date_range.1.toDays ≤ l.date_publication.toDays ∧
       l.date_publication.toDays ≤ c.date_range.2.toDays) ∧
      (c.annee_range.1 ≤ l.annee ∧ l.annee ≤ c.annee_range.2) ∧
      (c.km_range.1 ≤ l.kilometrage_km ∧ l.kilometrage_km ≤ c.km_range.2) ∧
      (c.prix_range.1 ≤ l.prix_eur ∧ l.prix_eur ≤ c.prix_range.2) ∧
      l.type_vendeur ∈ c.type_vendeur := by
  rw [applyFilters_mem_aux]
  simp only [dateFilterOk, otherFiltersOk, Bool.and_eq_true, decide_eq_true_eq, and_assoc]

set_option maxRecDepth 8000 in
/-- Claim C5 witness: a concrete listing satisfying all five predicates is in
the filtered view. -/
theorem mem_applyFilters_iff_witness :
    dupListing ∈ applyFilters [dupListing] critWide :=
  (mem_applyFilters_iff [dupListing] critWide dupListing).mpr (by decide)

/-- Claim C8: criteria with an inverted range (min above max) in any of the
date, year, mileage or price ranges produce the empty filtered view for
every listing sequence, with no error. -/
theorem inverted_range_empty (L : List Listing) (c : FilterCriteria)
    (hne : L ≠ [])
    (hinv : c.date_range.2.toDays < c.date_range.1.toDays ∨
            c.annee_range.2 < c.annee_range.1 ∨
            c.km_range.2 < c.km_range.1 ∨
            c.prix_range.2 < c.prix_range.1) :
    applyFilters L c = [] := by
  unfold applyFilters
  rcases hinv with h | h | h | h
  · have hd : L.filter (dateFilterOk c) = [] := by
      rw [List.filter_eq_nil_iff]
      intro r hr
      simp only [dateFilterOk, Bool.and_eq_true, decide_eq_true_eq]
      rintro ⟨h1, h2⟩
      exact absurd (h1.trans h2) (not_le.mpr h)
    rw [hd, List.filter_nil]
  all_goals
    rw [List.filter_eq_nil_iff]
    intro r hr
    simp only [otherFiltersOk, Bool.and_eq_true, decide_eq_true_eq, and_assoc]
    rintro ⟨h1, h2, h3, h4, h5, h6, h7⟩
  · exact absurd (h1.trans h2) (not_le.mpr h)
  · exact absurd (h3.trans h4) (not_le.mpr h)
  · exact absurd (h5.trans h6) (not_le.mpr h)

/-- Claim C8 witness: an inverted date range on a one-listing input gives the
empty view. -/
theorem inverted_range_empty_witness :
    applyFilters [dupListing] critInverted = [] :=
  inverted_range_empty [dupListing] critInverted (by decide) (Or.inl (by decide))

/-- Claim C9: the filtered view is an order-preserving subsequence of the
input: every row of the view is an input row, the relative order of retained
rows is the input order, and the view is no longer than the input. -/
theorem applyFilters_sublist (L : List Listing) (c : FilterCriteria) :
    (applyFilters L c).Sublist L ∧
    (applyFilters L c).length ≤ L.length ∧
    ∀ l ∈ applyFilters L c, l ∈ L := by
  have hs : (applyFilters L c).Sublist L :=
    (List.filter_sublist (L.filter (dateFilterOk c))).trans (List.filter_sublist L)
  exact ⟨hs, hs.length_le, fun l hl => hs.subset hl⟩

/-- Claim C9 witness: the sublist property at a concrete input. -/
theorem applyFilters_sublist_witness :
    (applyFilters demoUp critWide).Sublist demoUp :=
  (applyFilters_sublist demoUp critWide).1

/-- Claim C10: filtering is idempotent, filtering an already filtered view
with the same criteria returns it unchanged. -/
theorem applyFilters_idempotent (L : List Listing) (c : FilterCriteria) :
    applyFilters (applyFilters L c) c = applyFilters L c := by
  have hmem : ∀ l ∈ applyFilters L c, dateFilterOk c l = true ∧ otherFiltersOk c l = true :=
    fun l hl => ((applyFilters_mem_aux L c l).mp hl).2
  show ((applyFilters L c).filter (dateFilterOk c)).filter (otherFiltersOk c) = applyFilters L c
  rw [List.filter_eq_self.mpr (fun a ha => (hmem a ha).1)]
  exact List.filter_eq_self.mpr (fun a ha => (hmem a ha).2)

/-- Claim C1 (code bug evaluation): on a filtered view of zero rows the
metrics block computes the pandas mean and median of an empty series, which
are NaN, and formats them straight into the metric strings: no EmptyInput
condition or documented sentinel is surfaced. -/
theorem summarize_empty_nan :
    summarize [] =
      { count := 0, mean_price := PFloat.nan, median_price := PFloat.nan,
        mean_mileage := PFloat.nan } :=
  rfl

/-- Claim C2 (amended): the load fails with SourceUnavailable exactly when
the source cannot be located; when the source is present and every present
date cell parses, rows with a missing date or price are silently excluded
and exactly the rows with a parsable date and a present price survive. -/
theorem load_data_missing_fields_dropped (rows : List RawRow)
    (h : anyBadDate rows = false) :
    load_data none = Except.error LoadError.sourceUnavailable ∧
    load_data (some rows) = Except.ok (rows.filterMap rowToListing) ∧
    (rows.filterMap rowToListing).length =
      (rows.filter (fun r => (r.date_publication.bind parseDate).isSome && r.prix_eur.isSome)).length := by
  refine ⟨rfl, ?_, ?_⟩
  · simp [load_data, h]
  · rw [length_filterMap_eq]
    congr 1
    apply List.filter_congr
    intro r hr
    exact rowToListing_isSome r

set_option maxRecDepth 8000 in
/-- Claim C2 witness: a source with five well-formed rows and two rows
missing prix_eur loads to exactly five listings. -/
theorem load_data_missing_fields_dropped_witness :
    load_data (some sevenRows) = Except.ok (sevenRows.filterMap rowToListing) ∧
    (sevenRows.filterMap rowToListing).length = 5 :=
  ⟨(load_data_missing_fields_dropped sevenRows (by decide)).2.1, by decide⟩

set_option maxRecDepth 8000 in
/-- Claim C2 counterexample: a row whose date cell is present but unparsable
is not silently excluded: pd.to_datetime raises, the generic handler turns it
into a surfaced error, and a located source holding one well-formed row and
one bad-date row yields no listings instead of the one good listing. -/
theorem load_data_unparsable_date_errors :
    load_data (some [rawGoodRow, rawBadDateRow]) = Except.error LoadError.parseError ∧
    load_data (some [rawGoodRow, rawBadDateRow]) ≠ Except.ok [goodListing] := by
  have h : load_data (some [rawGoodRow, rawBadDateRow]) = Except.error LoadError.parseError := by
    rfl
  refine ⟨h, ?_⟩
  rw [h]
  intro hc
  exact Except.noConfusion hc

/-- Claim C3: fit_trend performs an ordinary least-squares fit of the price
against the integer day offset from the minimal publication date of the
view (the fitted line satisfies both least-squares normal equations over
exactly those points, and being a pure function of the view it is the same
for the same subset); on the two-point view with day offsets 0 and 10 and
prices 1000 and 2000 it returns slope 100 and intercept 1000, and predict
applied to 5 gives 1500. -/
theorem fit_trend_ols_spec (view : List Listing) (h2 : 1 < view.length)
    (hD : olsDenom (trendPoints view) ≠ 0) :
    fit_trend view = TrendResult.fitted (olsFit (trendPoints view)) ∧
    residSum (trendPoints view) (olsFit (trendPoints view)) = 0 ∧
    residXSum (trendPoints view) (olsFit (trendPoints view)) = 0 ∧
    fit_trend demoUp = TrendResult.fitted { slope := 100, intercept := 1000 } ∧
    LinearModel.predict { slope := 100, intercept := 1000 } 5 = 1500 := by
  have hn : ((trendPoints view).length : ℚ) ≠ 0 := by
    rw [trendPoints_length]
    exact_mod_cast (Nat.lt_trans Nat.zero_lt_one h2).ne'
  have hXX : sumXX (trendPoints view) ≠ 0 := by
    intro h0
    apply hD
    have hx : sumX (trendPoints view) = 0 := sumX_sq_zero (trendPoints view) h0
    simp [olsDenom, h0, hx]
  obtain ⟨hr1, hr2⟩ := olsFit_normalEquations (trendPoints view) hn hD
  have hdemo : trendPoints demoUp = [(0, 1000), (10, 2000)] := by decide
  have hXXdemo : sumXX (trendPoints demoUp) ≠ 0 := by
    rw [hdemo]
    norm_num [sumXX]
  have h1 : fit_trend demoUp = TrendResult.fitted (olsFit (trendPoints demoUp)) := by
    simp [fit_trend, hXXdemo, (by decide : 1 < demoUp.length)]
  refine ⟨by simp [fit_trend, h2, hXX], hr1, hr2, ?_, by norm_num [LinearModel.predict]⟩
  rw [h1, hdemo]
  norm_num [olsFit, olsDenom, sumX, sumY, sumXX, sumXY]

/-- Claim C3 witness: the two-point instance named by the specification. -/
theorem fit_trend_ols_spec_witness :
    fit_trend demoUp = TrendResult.fitted { slope := 100, intercept := 1000 } ∧
    residSum (trendPoints demoUp) (olsFit (trendPoints demoUp)) = 0 := by
  have hdemo : trendPoints demoUp = [(0, 1000), (10, 2000)] := by decide
  have hD : olsDenom (trendPoints demoUp) ≠ 0 := by
    rw [hdemo]
    norm_num [olsDenom, sumX, sumXX]
  have h := fit_trend_ols_spec demoUp (by decide) hD
  exact ⟨h.2.2.2.1, h.2.1⟩

set_option maxRecDepth 8000 in
/-- Claim C4 counterexample: a view of two identical rows holds a single
distinct data point, yet the guard of app.py line 157 only counts rows, so
np.polyfit is called; its column scaling divides the all-zero day-offset
column by its zero norm, np.linalg.lstsq raises LinAlgError and the generic
top-level handler surfaces a blocking error, so the overlay is not skipped
gracefully with InsufficientData as the claim states: the render fails. -/
theorem fit_trend_duplicate_rows :
    ([dupListing, dupListing] : List Listing).dedup.length = 1 ∧
    fit_trend [dupListing, dupListing] = TrendResult.failed ∧
    TrendResult.failed ≠ TrendResult.skipped := by
  have hpts : trendPoints [dupListing, dupListing] = [(0, 1000), (0, 1000)] := by decide
  have hXX0 : sumXX (trendPoints [dupListing, dupListing]) = 0 := by
    rw [hpts]
    norm_num [sumXX]
  refine ⟨by decide, ?_, by decide⟩
  simp [fit_trend, hXX0, (by decide : 1 < ([dupListing, dupListing] : List Listing).length)]

/-- Claim C4 (amended): the trend guard counts rows, not distinct points:
with at most one row no fit is attempted and the overlay is skipped without
error; with two or more rows whose publication dates all coincide (the day
offsets are identically zero) np.polyfit raises and the error is surfaced
by the generic handler instead of a graceful skip; with two or more rows
and a nonzero day-offset column the fit is performed. -/
theorem fit_trend_row_guard (view : List Listing) :
    (view.length ≤ 1 → fit_trend view = TrendResult.skipped) ∧
    (1 < view.length → sumXX (trendPoints view) = 0 →
      fit_trend view = TrendResult.failed) ∧
    (1 < view.length → sumXX (trendPoints view) ≠ 0 →
      fit_trend view = TrendResult.fitted (olsFit (trendPoints view))) := by
  refine ⟨fun h => ?_, fun h2 h0 => ?_, fun h2 h0 => ?_⟩
  · simp [fit_trend, Nat.not_lt.mpr h]
  · simp [fit_trend, h2, h0]
  · simp [fit_trend, h2, h0]

set_option maxRecDepth 8000 in
/-- Claim C4 amended witness: one row skips the overlay, two identical rows
make the fit attempt fail, two rows ten days apart get a fitted line. -/
theorem fit_trend_row_guard_witness :
    fit_trend [dupListing] = TrendResult.skipped ∧
    fit_trend [dupListing, dupListing] = TrendResult.failed ∧
    fit_trend demoUp = TrendResult.fitted (olsFit (trendPoints demoUp)) := by
  have hp1 : trendPoints [dupListing, dupListing] = [(0, 1000), (0, 1000)] := by decide
  have hp2 : trendPoints demoUp = [(0, 1000), (10, 2000)] := by decide
  refine ⟨(fit_trend_row_guard [dupListing]).1 (by decide),
          (fit_trend_row_guard [dupListing, dupListing]).2.1 (by decide) ?_,
          (fit_trend_row_guard demoUp).2.2 (by decide) ?_⟩
  · rw [hp1]
    norm_num [sumXX]
  · rw [hp2]
    norm_num [sumXX]

set_option maxRecDepth 8000 in
/-- Claim C6 (code bug evaluation): app.py line 252 formats the date column
to DD/MM/YYYY strings before the descending sort of line 253, so the table
is ordered by string comparison rather than reverse-chronologically: the
listing published January 2, 2024 is placed before the listing published
February 1, 2024, although it was published earlier. -/
theorem display_sort_not_reverse_chronological :
    displayTable [listingJan2, listingFeb1] = [toDisplay listingJan2, toDisplay listingFeb1] ∧
    listingJan2.date_publication.toDays < listingFeb1.date_publication.toDays := by
  exact ⟨by decide, by decide⟩

/-- Claim C7: group_by_year returns one entry per model year present in the
view, with the years strictly increasing, each entry carrying the size and
the mean price of exactly that year group of the view, every group being
nonempty (so no zero-filled entries for absent years). -/
theorem group_by_year_spec (view : List Listing) :
    List.Chain' (fun a b => a < b) ((group_by_year view).map (fun e => e.1)) ∧
    (∀ e ∈ group_by_year view,
        e.2.2 = (yearGroup view e.1).length ∧
        e.2.1 = pmean ((yearGroup view e.1).map (fun r => (r.prix_eur : ℚ))) ∧
        0 < e.2.2) ∧
    (∀ y : Int, (∃ e ∈ group_by_year view, e.1 = y) ↔ y ∈ view.map (fun r => r.annee)) := by
  have hmap : (group_by_year view).map (fun e => e.1) = yearsOf view := by
    unfold group_by_year
    rw [List.map_map]
    exact List.map_id' (yearsOf view)
  refine ⟨?_, ?_, ?_⟩
  · rw [hmap]
    exact (Finset.sort_sorted_lt _).chain'
  · intro e he
    obtain ⟨y, hy, rfl⟩ := List.mem_map.mp he
    refine ⟨rfl, rfl, ?_⟩
    obtain ⟨r, hr, hr'⟩ := List.mem_map.mp ((mem_yearsOf view y).mp hy)
    have hrg : r ∈ yearGroup view y := by
      simp [yearGroup, List.mem_filter, hr, hr']
    exact List.length_pos.mpr (List.ne_nil_of_mem hrg)
  · intro y
    constructor
    · rintro ⟨e, he, rfl⟩
      obtain ⟨y', hy', rfl⟩ := List.mem_map.mp he
      exact (mem_yearsOf view y').mp hy'
    · intro hy
      exact ⟨(y, pmean ((yearGroup view y).map (fun r => (r.prix_eur : ℚ))),
              (yearGroup view y).length),
             List.mem_map.mpr ⟨y, (mem_yearsOf view y).mpr hy, rfl⟩, rfl⟩

/-- Claim C7 witness: the year keys of a concrete grouped result are
strictly increasing. -/
theorem group_by_year_spec_witness :
    List.Chain' (fun a b => a < b) ((group_by_year demoUp).map (fun e => e.1)) :=
  (group_by_year_spec demoUp).1
